import Mathlib

/-!
# dust-tool: channel-open policy and dust-exposure audit

A shallow embedding of `main.go`.  The tool has two modes:

* `dustAcceptor` registers `channelPredicate` as the callback of lnd's channel
  acceptor; the callback accepts a channel-open request exactly when the
  proposed dust limit lies within fixed bounds;
* `checkDustChannels` lists the open channels and runs `evaluateChannelDust`
  on each of them, logging a close recommendation when the estimated dust
  exposure is above the `-dustexposure` flag.

Go's fixed-width integers are embedded as `Int` / `Nat` with the reduction
modulo `2 ^ w` written out wherever the Go operation can wrap.  `log.Printf`
is embedded by threading the list of lines logged so far; pointers are embedded
as `Option`, and reading a field through `nil` is an explicit panic.
-/

namespace DustTool

/-! ## Machine integers -/

/-- Value of an integer after conversion to (or arithmetic in) Go's `int64`, the
underlying type of `btcutil.Amount`: reduction modulo `2 ^ 64` into
`[-2 ^ 63, 2 ^ 63)`. -/
def toInt64 (x : Int) : Int := (x + 2 ^ 63) % 2 ^ 64 - 2 ^ 63

/-- Value of a natural number after arithmetic in Go's `uint32`. -/
def toUint32 (n : Nat) : Nat := n % 2 ^ 32

/-- Range of Go's `int64`. -/
def IsInt64 (x : Int) : Prop := -2 ^ 63 ≤ x ∧ x < 2 ^ 63

/-- Range of Go's `uint32`. -/
def IsUint32 (n : Nat) : Prop := n < 2 ^ 32

/-- Range of Go's `uint64`. -/
def IsUint64 (n : Nat) : Prop := n < 2 ^ 64

instance (x : Int) : Decidable (IsInt64 x) := by unfold IsInt64; infer_instance

instance (n : Nat) : Decidable (IsUint32 n) := by unfold IsUint32; infer_instance

instance (n : Nat) : Decidable (IsUint64 n) := by unfold IsUint64; infer_instance

/-! ## Data model

The records are declared by `lndclient`; the tool reads `DustLimit` of a
request, `ChannelPoint` and the two constraint records of a channel, and
writes `Accept` of a response.  Fields of the library records that the tool
never touches are kept as one payload (`rest`) where a statement needs to
speak about them. -/

/-- Mirror of `lndclient.ChannelConstraints`, restricted to the fields read by
`evaluateChannelDust`: `DustLimit` is a `btcutil.Amount` (`int64`),
`MaxAcceptedHtlcs` a `uint32`. -/
structure ChannelConstraints where
  DustLimit : Int
  MaxAcceptedHtlcs : Nat
deriving DecidableEq, Repr

/-- Mirror of `lndclient.ChannelInfo`, restricted to the fields read by
`evaluateChannelDust`: the funding outpoint and the constraint records of the
two parties.  The constraint fields are pointers (`*ChannelConstraints`), `none`
being `nil`: a listing that carries no constraints for a channel leaves them
unset. -/
structure ChannelInfo where
  ChannelPoint : String
  LocalConstraints : Option ChannelConstraints
  RemoteConstraints : Option ChannelConstraints
deriving DecidableEq, Repr

/-- A constraint record whose numeric fields are within the range of their Go
types. -/
def ChannelConstraints.WellTyped (c : ChannelConstraints) : Prop :=
  IsInt64 c.DustLimit ∧ IsUint32 c.MaxAcceptedHtlcs

instance (c : ChannelConstraints) : Decidable c.WellTyped := by
  unfold ChannelConstraints.WellTyped; infer_instance

/-- A constraint pointer that is nil or points to a well-typed record. -/
def WellTypedPointer : Option ChannelConstraints → Prop
  | none => True
  | some c => c.WellTyped

instance : (o : Option ChannelConstraints) → Decidable (WellTypedPointer o)
  | none => isTrue trivial
  | some c => inferInstanceAs (Decidable c.WellTyped)

/-- A channel snapshot whose numeric fields are within the range of their Go
types. -/
def ChannelInfo.WellTyped (info : ChannelInfo) : Prop :=
  WellTypedPointer info.LocalConstraints ∧ WellTypedPointer info.RemoteConstraints

instance (info : ChannelInfo) : Decidable info.WellTyped := by
  unfold ChannelInfo.WellTyped; infer_instance

/-- Mirror of `lndclient.AcceptorRequest`: the proposed dust limit
(`btcutil.Amount`) and, in `rest`, every other field of the request. -/
structure AcceptorRequest (ρ : Type) where
  DustLimit : Int
  rest : ρ

/-- Mirror of `lndclient.AcceptorResponse`: the decision, the rejection reason
sent to the peer, and, in `rest`, every other field of the response. -/
structure AcceptorResponse (σ : Type) where
  Accept : Bool
  Error : String
  rest : σ

/-- The Go zero value `lndclient.AcceptorResponse{}`; `default : σ` stands for
the zero value of the remaining fields. -/
def AcceptorResponse.zero (σ : Type) [Inhabited σ] : AcceptorResponse σ :=
  ⟨false, "", default⟩

/-- Run-time panics of the embedded code. -/
inductive GoPanic where
  | nilPointerDereference
deriving DecidableEq, Repr

/-- Equality of outcomes is decidable when it is for panics and for results. -/
instance {ε α : Type} [DecidableEq ε] [DecidableEq α] : DecidableEq (Except ε α)
  | .ok a, .ok b =>
    if h : a = b then isTrue (by rw [h]) else isFalse (fun h1 => h (Except.ok.inj h1))
  | .error a, .error b =>
    if h : a = b then isTrue (by rw [h]) else isFalse (fun h1 => h (Except.error.inj h1))
  | .ok _, .error _ => isFalse (fun h => Except.noConfusion h)
  | .error _, .ok _ => isFalse (fun h => Except.noConfusion h)

/-- What a call of the acceptor callback yields: a panic, or the pair
`(*AcceptorResponse, error)` with `none` for `nil`. -/
abbrev PredicateResult (σ : Type) := Except GoPanic (Option (AcceptorResponse σ) × Option String)

/-- Lines written through the `log` package by the audit mode, each with the
arguments of its format string. -/
inductive LogLine where
  | unableToCreateClient (err : String)
  | listChannelsFailed (err : String)
  | evaluatingChannels
  | considerClosing (chanpoint : String) (maxDustExposure : Int) (threshold : Int)
deriving DecidableEq, Repr

/-- How a run of the audit mode ends: the function returns, `log.Fatalf` ends the
process with exit status 1, or a panic that nothing recovers ends it. -/
inductive Termination where
  | returned
  | fatal
  | panicked (p : GoPanic)
deriving DecidableEq, Repr

/-- Outcome of a run of the audit mode: the lines logged and how the run ended. -/
structure AuditRun where
  log : List LogLine
  termination : Termination
deriving DecidableEq, Repr

/-! ## The code -/

/-- The default of the `-dustexposure` flag (`defaultDustThreshold`). -/
def defaultDustThreshold : Nat := 500000

/-- Local `maxDustLimit` of `evaluateChannelDust`: the higher of the two dust
limits. -/
def maxDustLimit (localConstraints remoteConstraints : ChannelConstraints) : Int :=
  let localDustLimit := localConstraints.DustLimit
  let remoteDustLimit := remoteConstraints.DustLimit
  if localDustLimit < remoteDustLimit then remoteDustLimit else localDustLimit

/-- Local `totalMaxHTLCs` of `evaluateChannelDust`: a `uint32` sum. -/
def totalMaxHTLCs (localConstraints remoteConstraints : ChannelConstraints) : Nat :=
  let localMaxAccepted := localConstraints.MaxAcceptedHtlcs
  let remoteMaxAccepted := remoteConstraints.MaxAcceptedHtlcs
  toUint32 (localMaxAccepted + remoteMaxAccepted)

/-- Local `maxDustExposure` of `evaluateChannelDust`: an `int64` product of
`maxDustLimit` and `btcutil.Amount(totalMaxHTLCs)`. -/
def maxDustExposure (localConstraints remoteConstraints : ChannelConstraints) : Int :=
  toInt64 (maxDustLimit localConstraints remoteConstraints *
    toInt64 (totalMaxHTLCs localConstraints remoteConstraints))

/-- Embedding of `evaluateChannelDust`: `dustThreshold` is the value of the
`uint64` flag, `log` the lines logged so far.  Reading a field through a nil
constraint pointer panics, before anything is logged for the channel. -/
def evaluateChannelDust (dustThreshold : Nat) (info : ChannelInfo) (log : List LogLine) :
    Except GoPanic (List LogLine) :=
  match info.LocalConstraints with
  | none => .error GoPanic.nilPointerDereference
  | some localConstraints =>
    match info.RemoteConstraints with
    | none => .error GoPanic.nilPointerDereference
    | some remoteConstraints =>
      let chanpoint := info.ChannelPoint
      if maxDustExposure localConstraints remoteConstraints > toInt64 dustThreshold then
        .ok (log ++ [LogLine.considerClosing chanpoint
          (maxDustExposure localConstraints remoteConstraints) (toInt64 dustThreshold)])
      else
        .ok log

/-- The `for _, channel := range channelResp` loop of `checkDustChannels`: the
channels are evaluated in order; a panic ends the run with the lines logged so
far, the remaining channels are not evaluated. -/
def checkDustChannelsLoop (dustThreshold : Nat) :
    List ChannelInfo → List LogLine → AuditRun
  | [], log => ⟨log, Termination.returned⟩
  | channel :: channelResp, log =>
    match evaluateChannelDust dustThreshold channel log with
    | .error p => ⟨log, Termination.panicked p⟩
    | .ok log => checkDustChannelsLoop dustThreshold channelResp log

/-- Embedding of `checkDustChannels`.  The two calls into `lndclient` are taken as
their results: `createRpcClient` and, for a client that was created,
`ListChannels`. -/
def checkDustChannels (dustThreshold : Nat) (createRpcClient : Except String Unit)
    (listChannels : Except String (List ChannelInfo)) : AuditRun :=
  match createRpcClient with
  | .error err => ⟨[LogLine.unableToCreateClient err], Termination.fatal⟩
  | .ok _ =>
    match listChannels with
    | .error err => ⟨[LogLine.listChannelsFailed err], Termination.fatal⟩
    | .ok channelResp =>
      checkDustChannelsLoop dustThreshold channelResp [LogLine.evaluatingChannels]

/-- Embedding of `channelPredicate`.  The context is not inspected; `req` is a
pointer, `none` being `nil`. -/
def channelPredicate (σ : Type) [Inhabited σ] {κ ρ : Type} (_ctx : κ)
    (req : Option (AcceptorRequest ρ)) : PredicateResult σ :=
  let minDustLimit : Int := toInt64 330
  let maxDustLimit : Int := toInt64 (minDustLimit * 3)
  let resp := AcceptorResponse.zero σ
  match req with
  | none => .error GoPanic.nilPointerDereference
  | some req =>
    let receivedLimit := req.DustLimit
    if receivedLimit < minDustLimit ∨ receivedLimit > maxDustLimit then
      .ok (some { resp with Accept := false }, none)
    else
      .ok (some { resp with Accept := true }, none)

/-- The `Accept` field of the response a call returned, if it returned one. -/
def acceptFlag {σ : Type} (r : PredicateResult σ) : Option Bool :=
  match r with
  | .ok (some resp, _) => some resp.Accept
  | _ => none

/-- A fetched entry that carries both constraint records. -/
def withConstraints (chanpoint : String) (localConstraints remoteConstraints : ChannelConstraints) :
    ChannelInfo :=
  ⟨chanpoint, some localConstraints, some remoteConstraints⟩

/-- The lines the audit loop adds after the header line, for a given list of
fetched channels. -/
def advisoryLines (dustThreshold : Nat) (channels : List ChannelInfo) : List LogLine :=
  (checkDustChannels dustThreshold (.ok ()) (.ok channels)).log.drop 1

/-- The acceptor stream as seen from the callback: `channelPredicate` is invoked
once per inbound request, in arrival order, each call with its own context. -/
def acceptorDecisions (σ : Type) [Inhabited σ] {κ ρ : Type}
    (requests : List (κ × AcceptorRequest ρ)) : List (PredicateResult σ) :=
  requests.map (fun call => channelPredicate σ call.1 (some call.2))

/-! ## Supporting lemmas -/

theorem toInt64_of_isInt64 {x : Int} (h : IsInt64 x) : toInt64 x = x := by
  obtain ⟨h1, h2⟩ := h
  unfold toInt64
  rw [Int.emod_eq_of_lt (by omega) (by omega)]
  omega

theorem toInt64_isInt64 (x : Int) : IsInt64 (toInt64 x) := by
  unfold toInt64 IsInt64
  have h1 := Int.emod_nonneg (x + 2 ^ 63) (show (2 : Int) ^ 64 ≠ 0 by norm_num)
  have h2 := Int.emod_lt_of_pos (x + 2 ^ 63) (show (0 : Int) < 2 ^ 64 by norm_num)
  constructor <;> omega

theorem minDustLimit_eq : toInt64 330 = 330 := by decide

theorem maxDustLimit_eq : toInt64 (330 * 3) = 990 := by decide

theorem channelPredicate_some (σ : Type) [Inhabited σ] {κ ρ : Type} (ctx : κ)
    (req : AcceptorRequest ρ) :
    channelPredicate σ ctx (some req) =
      .ok (some ⟨decide (330 ≤ req.DustLimit ∧ req.DustLimit ≤ 990), "", default⟩, none) := by
  simp only [channelPredicate, minDustLimit_eq, maxDustLimit_eq, AcceptorResponse.zero]
  by_cases h : req.DustLimit < 330 ∨ req.DustLimit > 990
  · rw [if_pos h]
    have : ¬ (330 ≤ req.DustLimit ∧ req.DustLimit ≤ 990) := by omega
    simp [this]
  · rw [if_neg h]
    have : 330 ≤ req.DustLimit ∧ req.DustLimit ≤ 990 := by omega
    simp [this]

theorem maxDustLimit_eq_max (lc rc : ChannelConstraints) :
    maxDustLimit lc rc = max lc.DustLimit rc.DustLimit := by
  unfold maxDustLimit
  by_cases h : lc.DustLimit < rc.DustLimit
  · simp only [if_pos h]; rw [max_eq_right (le_of_lt h)]
  · simp only [if_neg h]; rw [max_eq_left (not_lt.mp h)]

theorem totalMaxHTLCs_exact (lc rc : ChannelConstraints)
    (hsum : lc.MaxAcceptedHtlcs + rc.MaxAcceptedHtlcs < 2 ^ 32) :
    totalMaxHTLCs lc rc = lc.MaxAcceptedHtlcs + rc.MaxAcceptedHtlcs := by
  unfold totalMaxHTLCs toUint32
  exact Nat.mod_eq_of_lt hsum

theorem toInt64_threshold {dustThreshold : Nat} (h : dustThreshold < 2 ^ 63) :
    toInt64 (dustThreshold : Int) = dustThreshold := by
  apply toInt64_of_isInt64
  unfold IsInt64
  constructor <;> omega

theorem maxDustExposure_of_no_overflow (lc rc : ChannelConstraints)
    (hsum : lc.MaxAcceptedHtlcs + rc.MaxAcceptedHtlcs < 2 ^ 32)
    (hprod : IsInt64 (max lc.DustLimit rc.DustLimit *
      ((lc.MaxAcceptedHtlcs : Int) + rc.MaxAcceptedHtlcs))) :
    maxDustExposure lc rc =
      max lc.DustLimit rc.DustLimit * ((lc.MaxAcceptedHtlcs : Int) + rc.MaxAcceptedHtlcs) := by
  unfold maxDustExposure
  rw [totalMaxHTLCs_exact lc rc hsum, maxDustLimit_eq_max]
  have hcast : (((lc.MaxAcceptedHtlcs + rc.MaxAcceptedHtlcs : Nat) : Int)) =
      (lc.MaxAcceptedHtlcs : Int) + rc.MaxAcceptedHtlcs := by push_cast; rfl
  rw [hcast]
  have h1 : toInt64 ((lc.MaxAcceptedHtlcs : Int) + rc.MaxAcceptedHtlcs) =
      (lc.MaxAcceptedHtlcs : Int) + rc.MaxAcceptedHtlcs := by
    apply toInt64_of_isInt64
    unfold IsInt64
    constructor <;> omega
  rw [h1]
  exact toInt64_of_isInt64 hprod

theorem maxDustExposure_exact (lc rc : ChannelConstraints)
    (hl : 0 ≤ lc.DustLimit)
    (hsum : lc.MaxAcceptedHtlcs + rc.MaxAcceptedHtlcs < 2 ^ 32)
    (hprod : max lc.DustLimit rc.DustLimit *
      ((lc.MaxAcceptedHtlcs : Int) + rc.MaxAcceptedHtlcs) < 2 ^ 63) :
    maxDustExposure lc rc =
      max lc.DustLimit rc.DustLimit * ((lc.MaxAcceptedHtlcs : Int) + rc.MaxAcceptedHtlcs) := by
  apply maxDustExposure_of_no_overflow lc rc hsum
  refine ⟨?_, hprod⟩
  have hmax : 0 ≤ max lc.DustLimit rc.DustLimit := le_max_of_le_left hl
  have hnn : 0 ≤ max lc.DustLimit rc.DustLimit *
      ((lc.MaxAcceptedHtlcs : Int) + rc.MaxAcceptedHtlcs) :=
    mul_nonneg hmax (by omega)
  omega

theorem evaluateChannelDust_some (dustThreshold : Nat) (chanpoint : String)
    (lc rc : ChannelConstraints) (log : List LogLine) :
    evaluateChannelDust dustThreshold ⟨chanpoint, some lc, some rc⟩ log =
      .ok (if maxDustExposure lc rc > toInt64 dustThreshold then
        log ++ [LogLine.considerClosing chanpoint (maxDustExposure lc rc)
          (toInt64 dustThreshold)]
      else log) := by
  unfold evaluateChannelDust
  by_cases h : maxDustExposure lc rc > toInt64 dustThreshold
  · simp [h]
  · simp [h]

theorem evaluateChannelDust_ne_iff (dustThreshold : Nat) (chanpoint : String)
    (lc rc : ChannelConstraints) (log : List LogLine) :
    evaluateChannelDust dustThreshold ⟨chanpoint, some lc, some rc⟩ log ≠ .ok log ↔
      maxDustExposure lc rc > toInt64 dustThreshold := by
  rw [evaluateChannelDust_some]
  by_cases h : maxDustExposure lc rc > toInt64 dustThreshold
  · simp [h]
  · simp [h]

theorem protocol_range_no_overflow (lc rc : ChannelConstraints)
    (hl : lc.DustLimit ≤ 2100000000000000) (hr : rc.DustLimit ≤ 2100000000000000)
    (hlm : lc.MaxAcceptedHtlcs ≤ 483) (hrm : rc.MaxAcceptedHtlcs ≤ 483) :
    lc.MaxAcceptedHtlcs + rc.MaxAcceptedHtlcs < 2 ^ 32 ∧
      max lc.DustLimit rc.DustLimit *
        ((lc.MaxAcceptedHtlcs : Int) + rc.MaxAcceptedHtlcs) < 2 ^ 63 := by
  refine ⟨by omega, ?_⟩
  have hmax : max lc.DustLimit rc.DustLimit ≤ 2100000000000000 := max_le hl hr
  have hs0 : (0 : Int) ≤ (lc.MaxAcceptedHtlcs : Int) + rc.MaxAcceptedHtlcs := by omega
  have hs : (lc.MaxAcceptedHtlcs : Int) + rc.MaxAcceptedHtlcs ≤ 966 := by omega
  have h1 := mul_le_mul_of_nonneg_right hmax hs0
  have h2 : (2100000000000000 : Int) * ((lc.MaxAcceptedHtlcs : Int) + rc.MaxAcceptedHtlcs)
      ≤ 2100000000000000 * 966 :=
    mul_le_mul_of_nonneg_left hs (by norm_num)
  have h3 : (2100000000000000 : Int) * 966 < 2 ^ 63 := by norm_num
  exact lt_of_le_of_lt (le_trans h1 h2) h3

theorem checkDustChannelsLoop_withConstraints (dustThreshold : Nat)
    (entries : List (String × ChannelConstraints × ChannelConstraints)) (log : List LogLine) :
    checkDustChannelsLoop dustThreshold
        (entries.map (fun e => withConstraints e.1 e.2.1 e.2.2)) log =
      ⟨log ++ (entries.filter
          (fun e => decide (maxDustExposure e.2.1 e.2.2 > toInt64 dustThreshold))).map
          (fun e => LogLine.considerClosing e.1 (maxDustExposure e.2.1 e.2.2)
            (toInt64 dustThreshold)),
        Termination.returned⟩ := by
  induction entries generalizing log with
  | nil => simp [checkDustChannelsLoop]
  | cons e es ih =>
    rw [List.map_cons, checkDustChannelsLoop, withConstraints, evaluateChannelDust_some]
    simp only []
    rw [ih]
    by_cases h : maxDustExposure e.2.1 e.2.2 > toInt64 dustThreshold
    · simp [h, List.filter_cons]
    · simp [h, List.filter_cons]

/-! ## Channel-open policy -/

/-- C1: for every request, whatever its proposed dust limit `d` (negative values
included), `channelPredicate` answers `Accept = true` exactly when
`330 ≤ d ≤ 990` and `Accept = false` otherwise; 330 and 990 are accepted, 329
and 991 rejected. -/
theorem channelPredicate_accept_iff (σ : Type) [Inhabited σ] {κ ρ : Type} (ctx : κ)
    (req : AcceptorRequest ρ) (rest : ρ) :
    (acceptFlag (channelPredicate σ ctx (some req)) = some true ↔
        330 ≤ req.DustLimit ∧ req.DustLimit ≤ 990) ∧
      (acceptFlag (channelPredicate σ ctx (some req)) = some false ↔
        ¬ (330 ≤ req.DustLimit ∧ req.DustLimit ≤ 990)) ∧
      acceptFlag (channelPredicate σ ctx (some ⟨330, rest⟩)) = some true ∧
      acceptFlag (channelPredicate σ ctx (some ⟨990, rest⟩)) = some true ∧
      acceptFlag (channelPredicate σ ctx (some ⟨329, rest⟩)) = some false ∧
      acceptFlag (channelPredicate σ ctx (some ⟨991, rest⟩)) = some false := by
  refine ⟨?_, ?_, ?_, ?_, ?_, ?_⟩ <;> simp [channelPredicate_some, acceptFlag]

/-- C6: called on a request, `channelPredicate` does not panic and returns a
non-nil response together with a nil error, on the accept branch and on the
reject branch alike; apart from `Accept` the response is the zero value: no
rejection reason, every other field at its default. -/
theorem channelPredicate_total (σ : Type) [Inhabited σ] {κ ρ : Type} (ctx : κ)
    (req : AcceptorRequest ρ) :
    ∃ resp : AcceptorResponse σ,
      channelPredicate σ ctx (some req) = .ok (some resp, none) ∧
        resp.Accept = decide (330 ≤ req.DustLimit ∧ req.DustLimit ≤ 990) ∧
        resp.Error = "" ∧ resp.rest = default :=
  ⟨_, channelPredicate_some σ ctx req, rfl, rfl, rfl⟩

/-! ## Dust-exposure estimator -/

/-- C2 (as stated) fails on fixed-width arithmetic, in each of its three
operations.  With the flag set to `2 ^ 63` the converted threshold is negative,
so a channel whose exact exposure `354 * 966` is far below the flag is reported.
With `2 ^ 31` HTLC slots on each side the `uint32` sum wraps to `0`, so a channel
whose exact exposure `354 * 2 ^ 32` is above the threshold is not reported.  With
a dust limit of `2 ^ 62` and four slots the `int64` product wraps to `0`, so a
channel whose exact exposure `2 ^ 64` is above the threshold is not reported. -/
theorem evaluateChannelDust_exact_counterexample :
    (ChannelInfo.WellTyped ⟨"a:0", some ⟨354, 483⟩, some ⟨354, 483⟩⟩ ∧ IsUint64 (2 ^ 63) ∧
      evaluateChannelDust (2 ^ 63) ⟨"a:0", some ⟨354, 483⟩, some ⟨354, 483⟩⟩ [] =
        .ok [LogLine.considerClosing "a:0" 341964 (-9223372036854775808)] ∧
      ¬ (evaluateChannelDust (2 ^ 63) ⟨"a:0", some ⟨354, 483⟩, some ⟨354, 483⟩⟩ [] ≠ .ok [] ↔
        max (354 : Int) 354 * ((483 : Nat) + (483 : Nat)) > ((2 ^ 63 : Nat) : Int))) ∧
    (ChannelInfo.WellTyped ⟨"b:1", some ⟨354, 2 ^ 31⟩, some ⟨354, 2 ^ 31⟩⟩ ∧ IsUint64 500000 ∧
      evaluateChannelDust 500000 ⟨"b:1", some ⟨354, 2 ^ 31⟩, some ⟨354, 2 ^ 31⟩⟩ [] = .ok [] ∧
      ¬ (evaluateChannelDust 500000 ⟨"b:1", some ⟨354, 2 ^ 31⟩, some ⟨354, 2 ^ 31⟩⟩ [] ≠ .ok [] ↔
        max (354 : Int) 354 * ((2 ^ 31 : Nat) + (2 ^ 31 : Nat)) > ((500000 : Nat) : Int))) ∧
    (ChannelInfo.WellTyped ⟨"c:2", some ⟨2 ^ 62, 2⟩, some ⟨354, 2⟩⟩ ∧ IsUint64 500000 ∧
      evaluateChannelDust 500000 ⟨"c:2", some ⟨2 ^ 62, 2⟩, some ⟨354, 2⟩⟩ [] = .ok [] ∧
      ¬ (evaluateChannelDust 500000 ⟨"c:2", some ⟨2 ^ 62, 2⟩, some ⟨354, 2⟩⟩ [] ≠ .ok [] ↔
        max (2 ^ 62 : Int) 354 * ((2 : Nat) + (2 : Nat)) > ((500000 : Nat) : Int))) := by
  refine ⟨⟨by decide, by decide, by decide, by decide⟩,
    ⟨by decide, by decide, by decide, by decide⟩,
    ⟨by decide, by decide, by decide, by decide⟩⟩

/-- C2 (amended): for a snapshot whose HTLC sum is below `2 ^ 32` and whose exact
product lies in the `int64` range, and a threshold below `2 ^ 63`,
`evaluateChannelDust` logs a close recommendation (channel point, exact exposure,
threshold) if and only if the exact exposure
`max(local.dustLimit, remote.dustLimit) * (local.maxAcceptedHtlcs + remote.maxAcceptedHtlcs)`
is greater than the threshold, and logs nothing otherwise. -/
theorem evaluateChannelDust_emits_iff (dustThreshold : Nat) (chanpoint : String)
    (lc rc : ChannelConstraints) (log : List LogLine)
    (hsum : lc.MaxAcceptedHtlcs + rc.MaxAcceptedHtlcs < 2 ^ 32)
    (hprod : IsInt64 (max lc.DustLimit rc.DustLimit *
      ((lc.MaxAcceptedHtlcs : Int) + rc.MaxAcceptedHtlcs)))
    (hthr : dustThreshold < 2 ^ 63) :
    (evaluateChannelDust dustThreshold ⟨chanpoint, some lc, some rc⟩ log ≠ .ok log ↔
      max lc.DustLimit rc.DustLimit * ((lc.MaxAcceptedHtlcs : Int) + rc.MaxAcceptedHtlcs)
        > dustThreshold) ∧
    evaluateChannelDust dustThreshold ⟨chanpoint, some lc, some rc⟩ log =
      .ok (if max lc.DustLimit rc.DustLimit *
          ((lc.MaxAcceptedHtlcs : Int) + rc.MaxAcceptedHtlcs) > dustThreshold then
        log ++ [LogLine.considerClosing chanpoint
          (max lc.DustLimit rc.DustLimit *
            ((lc.MaxAcceptedHtlcs : Int) + rc.MaxAcceptedHtlcs)) dustThreshold]
      else log) := by
  have he := maxDustExposure_of_no_overflow lc rc hsum hprod
  have ht := toInt64_threshold hthr
  constructor
  · rw [evaluateChannelDust_ne_iff, he, ht]
  · rw [evaluateChannelDust_some, he, ht]

/-- An instance of `evaluateChannelDust_emits_iff`: dust limits 354 and 546, 483
HTLC slots per side, default threshold. -/
theorem evaluateChannelDust_emits_iff_witness :
    (evaluateChannelDust 500000 ⟨"a:0", some ⟨354, 483⟩, some ⟨546, 483⟩⟩ [] ≠ .ok [] ↔
      max (354 : Int) 546 * (((483 : Nat) : Int) + ((483 : Nat) : Int)) > ((500000 : Nat) : Int)) ∧
    evaluateChannelDust 500000 ⟨"a:0", some ⟨354, 483⟩, some ⟨546, 483⟩⟩ [] =
      .ok (if max (354 : Int) 546 * (((483 : Nat) : Int) + ((483 : Nat) : Int)) >
          ((500000 : Nat) : Int) then
        [] ++ [LogLine.considerClosing "a:0"
          (max (354 : Int) 546 * (((483 : Nat) : Int) + ((483 : Nat) : Int)))
          ((500000 : Nat) : Int)]
      else []) :=
  evaluateChannelDust_emits_iff 500000 "a:0" ⟨354, 483⟩ ⟨546, 483⟩ []
    (by decide) (by decide) (by decide)

/-- C3: the comparison is strict.  When the computed `maxDustExposure` equals the
threshold nothing is logged; when it equals the threshold plus one the
recommendation is logged. -/
theorem evaluateChannelDust_boundary (dustThreshold : Nat) (chanpoint : String)
    (lc rc : ChannelConstraints) (log : List LogLine) :
    (maxDustExposure lc rc = (dustThreshold : Int) →
      evaluateChannelDust dustThreshold ⟨chanpoint, some lc, some rc⟩ log = .ok log) ∧
    (maxDustExposure lc rc = (dustThreshold : Int) + 1 →
      evaluateChannelDust dustThreshold ⟨chanpoint, some lc, some rc⟩ log =
        .ok (log ++ [LogLine.considerClosing chanpoint ((dustThreshold : Int) + 1)
          dustThreshold])) := by
  have hrange := toInt64_isInt64 (maxDustLimit lc rc * toInt64 (totalMaxHTLCs lc rc))
  unfold IsInt64 at hrange
  have hexp : maxDustExposure lc rc < 2 ^ 63 := hrange.2
  constructor
  · intro h
    have ht := toInt64_threshold (show dustThreshold < 2 ^ 63 by omega)
    rw [evaluateChannelDust_some]
    simp [ht, h]
  · intro h
    have ht := toInt64_threshold (show dustThreshold < 2 ^ 63 by omega)
    rw [evaluateChannelDust_some]
    simp [ht, h]

/-- An instance of `evaluateChannelDust_boundary`: exposure `600 * 50 = 30000`
against the thresholds 30000 and 29999. -/
theorem evaluateChannelDust_boundary_witness :
    evaluateChannelDust 30000 ⟨"a:0", some ⟨400, 30⟩, some ⟨600, 20⟩⟩ [] = .ok [] ∧
    evaluateChannelDust 29999 ⟨"a:0", some ⟨400, 30⟩, some ⟨600, 20⟩⟩ [] =
      .ok ([] ++
        [LogLine.considerClosing "a:0" (((29999 : Nat) : Int) + 1) ((29999 : Nat) : Int)]) :=
  ⟨(evaluateChannelDust_boundary 30000 "a:0" ⟨400, 30⟩ ⟨600, 20⟩ []).1 (by decide),
    (evaluateChannelDust_boundary 29999 "a:0" ⟨400, 30⟩ ⟨600, 20⟩ []).2 (by decide)⟩

/-- C4: exchanging the local and the remote constraints of a snapshot leaves the
computed `maxDustLimit`, `totalMaxHTLCs` and `maxDustExposure` unchanged, hence
also what `evaluateChannelDust` does with the snapshot, for every threshold. -/
theorem evaluateChannelDust_swap (dustThreshold : Nat) (info : ChannelInfo)
    (lc rc : ChannelConstraints) (log : List LogLine) :
    maxDustLimit rc lc = maxDustLimit lc rc ∧
      totalMaxHTLCs rc lc = totalMaxHTLCs lc rc ∧
      maxDustExposure rc lc = maxDustExposure lc rc ∧
      evaluateChannelDust dustThreshold
          ⟨info.ChannelPoint, some rc, some lc⟩ log =
        evaluateChannelDust dustThreshold ⟨info.ChannelPoint, some lc, some rc⟩ log ∧
      evaluateChannelDust dustThreshold
          ⟨info.ChannelPoint, info.RemoteConstraints, info.LocalConstraints⟩ log =
        evaluateChannelDust dustThreshold info log := by
  have hmax : ∀ a b : ChannelConstraints, maxDustLimit b a = maxDustLimit a b := by
    intro a b
    rw [maxDustLimit_eq_max, maxDustLimit_eq_max]
    exact max_comm _ _
  have htot : ∀ a b : ChannelConstraints, totalMaxHTLCs b a = totalMaxHTLCs a b := by
    intro a b
    unfold totalMaxHTLCs
    simp only [Nat.add_comm]
  have hexp : ∀ a b : ChannelConstraints, maxDustExposure b a = maxDustExposure a b := by
    intro a b
    unfold maxDustExposure
    rw [hmax, htot]
  have hsome : ∀ (cp : String) (a b : ChannelConstraints),
      evaluateChannelDust dustThreshold ⟨cp, some b, some a⟩ log =
        evaluateChannelDust dustThreshold ⟨cp, some a, some b⟩ log := by
    intro cp a b
    rw [evaluateChannelDust_some, evaluateChannelDust_some, hexp]
  refine ⟨hmax lc rc, htot lc rc, hexp lc rc, hsome _ lc rc, ?_⟩
  obtain ⟨cp, l, r⟩ := info
  cases l with
  | none => cases r <;> rfl
  | some a =>
    cases r with
    | none => rfl
    | some b => exact hsome cp a b

/-- C5: the worked example.  For dust limits 400 / 600 and 30 / 20 HTLC slots
the code computes `maxDustLimit = 600`, `totalMaxHTLCs = 50` and
`maxDustExposure = 30000`; against the default threshold 500000 nothing is
logged, against 20000 one recommendation is logged, naming the channel point,
the exposure 30000 and the threshold 20000. -/
theorem evaluateChannelDust_example (chanpoint : String) (log : List LogLine) :
    maxDustLimit ⟨400, 30⟩ ⟨600, 20⟩ = 600 ∧
      totalMaxHTLCs ⟨400, 30⟩ ⟨600, 20⟩ = 50 ∧
      maxDustExposure ⟨400, 30⟩ ⟨600, 20⟩ = 30000 ∧
      defaultDustThreshold = 500000 ∧
      evaluateChannelDust defaultDustThreshold
        ⟨chanpoint, some ⟨400, 30⟩, some ⟨600, 20⟩⟩ log = .ok log ∧
      evaluateChannelDust 20000 ⟨chanpoint, some ⟨400, 30⟩, some ⟨600, 20⟩⟩ log =
        .ok (log ++ [LogLine.considerClosing chanpoint 30000 20000]) := by
  have h1 : maxDustLimit ⟨400, 30⟩ ⟨600, 20⟩ = 600 := by decide
  have h2 : totalMaxHTLCs ⟨400, 30⟩ ⟨600, 20⟩ = 50 := by decide
  have h3 : maxDustExposure ⟨400, 30⟩ ⟨600, 20⟩ = 30000 := by decide
  have h4 : toInt64 ((defaultDustThreshold : Nat) : Int) = 500000 := by decide
  have h5 : toInt64 ((20000 : Nat) : Int) = 20000 := by decide
  refine ⟨h1, h2, h3, rfl, ?_, ?_⟩
  · rw [evaluateChannelDust_some, h3, h4]
    simp
  · rw [evaluateChannelDust_some, h3, h5]
    simp

/-- C9: absent overflow and with non-negative dust limits, the computed
`maxDustExposure` is at least
`local.dustLimit * local.maxAcceptedHtlcs + remote.dustLimit * remote.maxAcceptedHtlcs`,
and equal to it when the two dust limits coincide. -/
theorem maxDustExposure_upper_bound (lc rc : ChannelConstraints)
    (hl : 0 ≤ lc.DustLimit) (_hr : 0 ≤ rc.DustLimit)
    (hsum : lc.MaxAcceptedHtlcs + rc.MaxAcceptedHtlcs < 2 ^ 32)
    (hprod : max lc.DustLimit rc.DustLimit *
      ((lc.MaxAcceptedHtlcs : Int) + rc.MaxAcceptedHtlcs) < 2 ^ 63) :
    lc.DustLimit * lc.MaxAcceptedHtlcs + rc.DustLimit * rc.MaxAcceptedHtlcs
        ≤ maxDustExposure lc rc ∧
      (lc.DustLimit = rc.DustLimit →
        maxDustExposure lc rc =
          lc.DustLimit * lc.MaxAcceptedHtlcs + rc.DustLimit * rc.MaxAcceptedHtlcs) := by
  rw [maxDustExposure_exact lc rc hl hsum hprod]
  constructor
  · have h1 : lc.DustLimit * lc.MaxAcceptedHtlcs ≤
        max lc.DustLimit rc.DustLimit * lc.MaxAcceptedHtlcs :=
      mul_le_mul_of_nonneg_right (le_max_left _ _) (by omega)
    have h2 : rc.DustLimit * rc.MaxAcceptedHtlcs ≤
        max lc.DustLimit rc.DustLimit * rc.MaxAcceptedHtlcs :=
      mul_le_mul_of_nonneg_right (le_max_right _ _) (by omega)
    rw [mul_add]
    exact add_le_add h1 h2
  · intro heq
    rw [heq, max_self, mul_add]

/-- An instance of `maxDustExposure_upper_bound`: the bound at dust limits
400 / 600 with 30 / 20 slots, and the equality at dust limits 546 / 546. -/
theorem maxDustExposure_upper_bound_witness :
    ((400 : Int) * ((30 : Nat) : Int) + 600 * ((20 : Nat) : Int)
        ≤ maxDustExposure ⟨400, 30⟩ ⟨600, 20⟩) ∧
      maxDustExposure ⟨546, 483⟩ ⟨546, 30⟩ =
        (546 : Int) * ((483 : Nat) : Int) + 546 * ((30 : Nat) : Int) :=
  ⟨(maxDustExposure_upper_bound ⟨400, 30⟩ ⟨600, 20⟩
      (by decide) (by decide) (by decide) (by decide)).1,
    (maxDustExposure_upper_bound ⟨546, 483⟩ ⟨546, 30⟩
      (by decide) (by decide) (by decide) (by decide)).2 rfl⟩

/-- C10: the fixed-width arithmetic agrees with the exact formula.  For
non-negative dust limits, an HTLC sum below `2 ^ 32`, an exact product below
`2 ^ 63` and a threshold below `2 ^ 63`, the `uint32` sum, the `int64` product
and the converted threshold are the exact values, the comparison made by the
code is the exact comparison, and a line is logged exactly when the exact
exposure exceeds the threshold; these conditions hold in particular when each
side has at most 483 slots and each dust limit is at most `2.1 * 10 ^ 15`. -/
theorem fixed_width_agrees_with_exact (dustThreshold : Nat) (chanpoint : String)
    (lc rc : ChannelConstraints) (log : List LogLine) :
    (0 ≤ lc.DustLimit → 0 ≤ rc.DustLimit →
      lc.MaxAcceptedHtlcs + rc.MaxAcceptedHtlcs < 2 ^ 32 →
      max lc.DustLimit rc.DustLimit *
        ((lc.MaxAcceptedHtlcs : Int) + rc.MaxAcceptedHtlcs) < 2 ^ 63 →
      dustThreshold < 2 ^ 63 →
      (totalMaxHTLCs lc rc = lc.MaxAcceptedHtlcs + rc.MaxAcceptedHtlcs ∧
        maxDustExposure lc rc =
          max lc.DustLimit rc.DustLimit *
            ((lc.MaxAcceptedHtlcs : Int) + rc.MaxAcceptedHtlcs) ∧
        toInt64 (dustThreshold : Int) = dustThreshold ∧
        (maxDustExposure lc rc > toInt64 dustThreshold ↔
          max lc.DustLimit rc.DustLimit *
            ((lc.MaxAcceptedHtlcs : Int) + rc.MaxAcceptedHtlcs) > dustThreshold) ∧
        (evaluateChannelDust dustThreshold ⟨chanpoint, some lc, some rc⟩ log ≠ .ok log ↔
          max lc.DustLimit rc.DustLimit *
            ((lc.MaxAcceptedHtlcs : Int) + rc.MaxAcceptedHtlcs) > dustThreshold))) ∧
    (0 ≤ lc.DustLimit → 0 ≤ rc.DustLimit →
      lc.DustLimit ≤ 2100000000000000 →
      rc.DustLimit ≤ 2100000000000000 →
      lc.MaxAcceptedHtlcs ≤ 483 →
      rc.MaxAcceptedHtlcs ≤ 483 →
      dustThreshold < 2 ^ 63 →
      (totalMaxHTLCs lc rc = lc.MaxAcceptedHtlcs + rc.MaxAcceptedHtlcs ∧
        maxDustExposure lc rc =
          max lc.DustLimit rc.DustLimit *
            ((lc.MaxAcceptedHtlcs : Int) + rc.MaxAcceptedHtlcs) ∧
        toInt64 (dustThreshold : Int) = dustThreshold ∧
        (maxDustExposure lc rc > toInt64 dustThreshold ↔
          max lc.DustLimit rc.DustLimit *
            ((lc.MaxAcceptedHtlcs : Int) + rc.MaxAcceptedHtlcs) > dustThreshold) ∧
        (evaluateChannelDust dustThreshold ⟨chanpoint, some lc, some rc⟩ log ≠ .ok log ↔
          max lc.DustLimit rc.DustLimit *
            ((lc.MaxAcceptedHtlcs : Int) + rc.MaxAcceptedHtlcs) > dustThreshold))) := by
  have key : 0 ≤ lc.DustLimit →
      lc.MaxAcceptedHtlcs + rc.MaxAcceptedHtlcs < 2 ^ 32 →
      max lc.DustLimit rc.DustLimit *
        ((lc.MaxAcceptedHtlcs : Int) + rc.MaxAcceptedHtlcs) < 2 ^ 63 →
      dustThreshold < 2 ^ 63 →
      (totalMaxHTLCs lc rc = lc.MaxAcceptedHtlcs + rc.MaxAcceptedHtlcs ∧
        maxDustExposure lc rc =
          max lc.DustLimit rc.DustLimit *
            ((lc.MaxAcceptedHtlcs : Int) + rc.MaxAcceptedHtlcs) ∧
        toInt64 (dustThreshold : Int) = dustThreshold ∧
        (maxDustExposure lc rc > toInt64 dustThreshold ↔
          max lc.DustLimit rc.DustLimit *
            ((lc.MaxAcceptedHtlcs : Int) + rc.MaxAcceptedHtlcs) > dustThreshold) ∧
        (evaluateChannelDust dustThreshold ⟨chanpoint, some lc, some rc⟩ log ≠ .ok log ↔
          max lc.DustLimit rc.DustLimit *
            ((lc.MaxAcceptedHtlcs : Int) + rc.MaxAcceptedHtlcs) > dustThreshold)) := by
    intro hl hsum hprod hthr
    have he := maxDustExposure_exact lc rc hl hsum hprod
    have ht := toInt64_threshold hthr
    refine ⟨totalMaxHTLCs_exact lc rc hsum, he, ht, by rw [he, ht], ?_⟩
    rw [evaluateChannelDust_ne_iff, he, ht]
  constructor
  · intro hl _ hsum hprod hthr
    exact key hl hsum hprod hthr
  · intro hl _ hlu hru hlm hrm hthr
    obtain ⟨hsum, hprod⟩ := protocol_range_no_overflow lc rc hlu hru hlm hrm
    exact key hl hsum hprod hthr

/-- An instance of `fixed_width_agrees_with_exact`, for both of its parts: dust
limits 354 / 546 with 483 slots per side, and dust limits `2.1 * 10 ^ 15` / 0
with 483 slots per side, each against the default threshold. -/
theorem fixed_width_agrees_with_exact_witness :
    (totalMaxHTLCs ⟨354, 483⟩ ⟨546, 483⟩ = 483 + 483 ∧
      maxDustExposure ⟨354, 483⟩ ⟨546, 483⟩ =
        max (354 : Int) 546 * (((483 : Nat) : Int) + ((483 : Nat) : Int)) ∧
      toInt64 ((500000 : Nat) : Int) = ((500000 : Nat) : Int) ∧
      (maxDustExposure ⟨354, 483⟩ ⟨546, 483⟩ > toInt64 ((500000 : Nat) : Int) ↔
        max (354 : Int) 546 * (((483 : Nat) : Int) + ((483 : Nat) : Int)) >
          ((500000 : Nat) : Int)) ∧
      (evaluateChannelDust 500000 ⟨"a:0", some ⟨354, 483⟩, some ⟨546, 483⟩⟩ [] ≠ .ok [] ↔
        max (354 : Int) 546 * (((483 : Nat) : Int) + ((483 : Nat) : Int)) >
          ((500000 : Nat) : Int))) ∧
    (totalMaxHTLCs ⟨2100000000000000, 483⟩ ⟨0, 483⟩ = 483 + 483 ∧
      maxDustExposure ⟨2100000000000000, 483⟩ ⟨0, 483⟩ =
        max (2100000000000000 : Int) 0 * (((483 : Nat) : Int) + ((483 : Nat) : Int)) ∧
      toInt64 ((500000 : Nat) : Int) = ((500000 : Nat) : Int) ∧
      (maxDustExposure ⟨2100000000000000, 483⟩ ⟨0, 483⟩ > toInt64 ((500000 : Nat) : Int) ↔
        max (2100000000000000 : Int) 0 * (((483 : Nat) : Int) + ((483 : Nat) : Int)) >
          ((500000 : Nat) : Int)) ∧
      (evaluateChannelDust 500000
          ⟨"b:1", some ⟨2100000000000000, 483⟩, some ⟨0, 483⟩⟩ [] ≠ .ok [] ↔
        max (2100000000000000 : Int) 0 * (((483 : Nat) : Int) + ((483 : Nat) : Int)) >
          ((500000 : Nat) : Int))) :=
  ⟨(fixed_width_agrees_with_exact 500000 "a:0" ⟨354, 483⟩ ⟨546, 483⟩ []).1
      (by decide) (by decide) (by decide) (by decide) (by decide),
    (fixed_width_agrees_with_exact 500000 "b:1" ⟨2100000000000000, 483⟩ ⟨0, 483⟩ []).2
      (by decide) (by decide) (by decide) (by decide) (by decide) (by decide) (by decide)⟩

/-! ## Dust auditor -/

/-- C7 (as stated) fails in two ways.  An entry whose constraint pointers are nil
makes `evaluateChannelDust` panic: the run ends after the line for `a:0`, and
`b:1`, which is reported when the entry is absent, is never evaluated.  With the
flag set to `2 ^ 63` the converted threshold is negative and `a:0` is reported
although its exposure 341964 does not exceed the threshold. -/
theorem checkDustChannels_audit_counterexample :
    (ChannelInfo.WellTyped ⟨"x:0", none, none⟩ ∧
      checkDustChannels 20000 (.ok ())
          (.ok [⟨"a:0", some ⟨400, 30⟩, some ⟨600, 20⟩⟩, ⟨"x:0", none, none⟩,
            ⟨"b:1", some ⟨546, 483⟩, some ⟨354, 483⟩⟩]) =
        ⟨[LogLine.evaluatingChannels, LogLine.considerClosing "a:0" 30000 20000],
          Termination.panicked GoPanic.nilPointerDereference⟩ ∧
      checkDustChannels 20000 (.ok ())
          (.ok [⟨"a:0", some ⟨400, 30⟩, some ⟨600, 20⟩⟩,
            ⟨"b:1", some ⟨546, 483⟩, some ⟨354, 483⟩⟩]) =
        ⟨[LogLine.evaluatingChannels, LogLine.considerClosing "a:0" 30000 20000,
          LogLine.considerClosing "b:1" 527436 20000], Termination.returned⟩) ∧
    (ChannelInfo.WellTyped ⟨"a:0", some ⟨354, 483⟩, some ⟨354, 483⟩⟩ ∧ IsUint64 (2 ^ 63) ∧
      checkDustChannels (2 ^ 63) (.ok ())
          (.ok [⟨"a:0", some ⟨354, 483⟩, some ⟨354, 483⟩⟩]) =
        ⟨[LogLine.evaluatingChannels,
          LogLine.considerClosing "a:0" 341964 (-9223372036854775808)],
          Termination.returned⟩ ∧
      maxDustExposure ⟨354, 483⟩ ⟨354, 483⟩ = 341964 ∧
      ¬ (maxDustExposure ⟨354, 483⟩ ⟨354, 483⟩ > ((2 ^ 63 : Nat) : Int))) := by
  refine ⟨⟨by decide, by decide, by decide⟩,
    ⟨by decide, by decide, by decide, by decide, by decide⟩⟩

/-- C7 (amended): once a channel list is fetched in which every entry carries both
constraint records, `checkDustChannels` evaluates every entry and returns
normally, and its log is the header line followed by one recommendation per
channel whose `maxDustExposure` is above the threshold as converted to `int64`
(the flag itself when it is below `2 ^ 63`), in list order; the lines of a list
are the lines of its parts, so an entry with both records, whatever they hold,
leaves the lines of the entries before and after it unchanged, and an entry with
zero HTLC slots on both sides adds no line for a threshold below `2 ^ 63`. -/
theorem checkDustChannels_audit (dustThreshold : Nat)
    (entries before after : List (String × ChannelConstraints × ChannelConstraints))
    (entry : String × ChannelConstraints × ChannelConstraints)
    (chanpoint : String) (localDust remoteDust : Int) :
    checkDustChannels dustThreshold (.ok ())
        (.ok (entries.map (fun e => withConstraints e.1 e.2.1 e.2.2))) =
      ⟨LogLine.evaluatingChannels ::
        (entries.filter
          (fun e => decide (maxDustExposure e.2.1 e.2.2 > toInt64 dustThreshold))).map
          (fun e => LogLine.considerClosing e.1 (maxDustExposure e.2.1 e.2.2)
            (toInt64 dustThreshold)), Termination.returned⟩ ∧
    (dustThreshold < 2 ^ 63 →
      checkDustChannels dustThreshold (.ok ())
          (.ok (entries.map (fun e => withConstraints e.1 e.2.1 e.2.2))) =
        ⟨LogLine.evaluatingChannels ::
          (entries.filter
            (fun e => decide (maxDustExposure e.2.1 e.2.2 > dustThreshold))).map
            (fun e => LogLine.considerClosing e.1 (maxDustExposure e.2.1 e.2.2)
              dustThreshold), Termination.returned⟩) ∧
    advisoryLines dustThreshold
        ((before ++ entry :: after).map (fun e => withConstraints e.1 e.2.1 e.2.2)) =
      advisoryLines dustThreshold (before.map (fun e => withConstraints e.1 e.2.1 e.2.2)) ++
        advisoryLines dustThreshold [withConstraints entry.1 entry.2.1 entry.2.2] ++
        advisoryLines dustThreshold (after.map (fun e => withConstraints e.1 e.2.1 e.2.2)) ∧
    (dustThreshold < 2 ^ 63 →
      advisoryLines dustThreshold
          ((before ++ (chanpoint, ⟨localDust, 0⟩, ⟨remoteDust, 0⟩) :: after).map
            (fun e => withConstraints e.1 e.2.1 e.2.2)) =
        advisoryLines dustThreshold (before.map (fun e => withConstraints e.1 e.2.1 e.2.2)) ++
          advisoryLines dustThreshold
            (after.map (fun e => withConstraints e.1 e.2.1 e.2.2))) := by
  have hrun : ∀ es : List (String × ChannelConstraints × ChannelConstraints),
      checkDustChannels dustThreshold (.ok ())
          (.ok (es.map (fun e => withConstraints e.1 e.2.1 e.2.2))) =
        ⟨LogLine.evaluatingChannels ::
          (es.filter
            (fun e => decide (maxDustExposure e.2.1 e.2.2 > toInt64 dustThreshold))).map
            (fun e => LogLine.considerClosing e.1 (maxDustExposure e.2.1 e.2.2)
              (toInt64 dustThreshold)), Termination.returned⟩ := by
    intro es
    simp only [checkDustChannels, checkDustChannelsLoop_withConstraints]
    rfl
  have hadv : ∀ es : List (String × ChannelConstraints × ChannelConstraints),
      advisoryLines dustThreshold (es.map (fun e => withConstraints e.1 e.2.1 e.2.2)) =
        (es.filter
          (fun e => decide (maxDustExposure e.2.1 e.2.2 > toInt64 dustThreshold))).map
          (fun e => LogLine.considerClosing e.1 (maxDustExposure e.2.1 e.2.2)
            (toInt64 dustThreshold)) := by
    intro es
    simp [advisoryLines, hrun]
  have hone : ∀ e : String × ChannelConstraints × ChannelConstraints,
      advisoryLines dustThreshold [withConstraints e.1 e.2.1 e.2.2] =
        ([e].filter
          (fun e => decide (maxDustExposure e.2.1 e.2.2 > toInt64 dustThreshold))).map
          (fun e => LogLine.considerClosing e.1 (maxDustExposure e.2.1 e.2.2)
            (toInt64 dustThreshold)) := by
    intro e
    exact hadv [e]
  refine ⟨hrun entries, ?_, ?_, ?_⟩
  · intro hthr
    rw [hrun, toInt64_threshold hthr]
  · rw [hadv, hadv, hadv, hone]
    by_cases h : maxDustExposure entry.2.1 entry.2.2 > toInt64 dustThreshold
    · simp [List.filter_cons, h]
    · simp [List.filter_cons, h]
  · intro hthr
    have hzero : ¬ (maxDustExposure ⟨localDust, 0⟩ ⟨remoteDust, 0⟩ >
        toInt64 dustThreshold) := by
      have h0 : maxDustExposure ⟨localDust, 0⟩ ⟨remoteDust, 0⟩ = 0 := by
        simp [maxDustExposure, totalMaxHTLCs, toUint32, toInt64]
      rw [h0, toInt64_threshold hthr]
      omega
    rw [hadv, hadv, hadv]
    simp [List.filter_cons, hzero]

/-- An instance of `checkDustChannels_audit` at threshold 20000: a flagged
channel, an entry without HTLC slots, and a second flagged channel. -/
theorem checkDustChannels_audit_witness :
    checkDustChannels 20000 (.ok ())
        (.ok [⟨"a:0", some ⟨400, 30⟩, some ⟨600, 20⟩⟩, ⟨"z:9", some ⟨354, 0⟩, some ⟨354, 0⟩⟩,
          ⟨"b:1", some ⟨546, 483⟩, some ⟨354, 483⟩⟩]) =
      ⟨[LogLine.evaluatingChannels, LogLine.considerClosing "a:0" 30000 20000,
        LogLine.considerClosing "b:1" 527436 20000], Termination.returned⟩ ∧
    advisoryLines 20000
        [⟨"a:0", some ⟨400, 30⟩, some ⟨600, 20⟩⟩, ⟨"z:9", some ⟨354, 0⟩, some ⟨354, 0⟩⟩,
          ⟨"b:1", some ⟨546, 483⟩, some ⟨354, 483⟩⟩] =
      advisoryLines 20000 [⟨"a:0", some ⟨400, 30⟩, some ⟨600, 20⟩⟩] ++
        advisoryLines 20000 [⟨"b:1", some ⟨546, 483⟩, some ⟨354, 483⟩⟩] :=
  ⟨((checkDustChannels_audit 20000
        [("a:0", ⟨400, 30⟩, ⟨600, 20⟩), ("z:9", ⟨354, 0⟩, ⟨354, 0⟩),
          ("b:1", ⟨546, 483⟩, ⟨354, 483⟩)] [] [] ("z:9", ⟨354, 0⟩, ⟨354, 0⟩) "z:9" 354 354).2.1
      (by decide)).trans (by decide),
    (checkDustChannels_audit 20000 [] [("a:0", ⟨400, 30⟩, ⟨600, 20⟩)]
      [("b:1", ⟨546, 483⟩, ⟨354, 483⟩)] ("z:9", ⟨354, 0⟩, ⟨354, 0⟩) "z:9" 354 354).2.2.2
      (by decide)⟩

/-! ## Acceptor loop -/

/-- C8: `N` inbound requests yield `N` decisions, in request order; the `i`-th
decision is a fixed function of the `i`-th request's dust limit and of nothing
else: equal dust limits give equal decisions whatever the context, the other
fields of the request, and the requests served before or after. -/
theorem acceptorDecisions_independent (σ : Type) [Inhabited σ] {κ ρ : Type}
    (requests before₁ after₁ before₂ after₂ : List (κ × AcceptorRequest ρ)) (i : Nat)
    (ctx₁ ctx₂ : κ) (d : Int) (rest₁ rest₂ : ρ) :
    (acceptorDecisions σ requests).length = requests.length ∧
      (acceptorDecisions σ requests)[i]? =
        requests[i]?.map (fun call =>
          .ok (some ⟨decide (330 ≤ call.2.DustLimit ∧ call.2.DustLimit ≤ 990), "", default⟩,
            none)) ∧
      channelPredicate σ ctx₁ (some ⟨d, rest₁⟩) = channelPredicate σ ctx₂ (some ⟨d, rest₂⟩) ∧
      (acceptorDecisions σ (before₁ ++ (ctx₁, ⟨d, rest₁⟩) :: after₁))[before₁.length]? =
        (acceptorDecisions σ (before₂ ++ (ctx₂, ⟨d, rest₂⟩) :: after₂))[before₂.length]? ∧
      (acceptorDecisions σ (before₁ ++ (ctx₁, ⟨d, rest₁⟩) :: after₁))[before₁.length]? =
        some (.ok (some ⟨decide (330 ≤ d ∧ d ≤ 990), "", default⟩, none)) := by
  have hat : ∀ (pre post : List (κ × AcceptorRequest ρ)) (ctx : κ) (rest : ρ),
      (acceptorDecisions σ (pre ++ (ctx, ⟨d, rest⟩) :: post))[pre.length]? =
        some (.ok (some ⟨decide (330 ≤ d ∧ d ≤ 990), "", default⟩, none)) := by
    intro pre post ctx rest
    simp only [acceptorDecisions, List.map_append, List.map_cons]
    rw [List.getElem?_append_right (by simp), List.length_map, Nat.sub_self]
    simp [channelPredicate_some]
  refine ⟨?_, ?_, ?_, ?_, hat before₁ after₁ ctx₁ rest₁⟩
  · simp [acceptorDecisions]
  · simp only [acceptorDecisions, List.getElem?_map, channelPredicate_some]
  · rw [channelPredicate_some, channelPredicate_some]
  · rw [hat before₁ after₁ ctx₁ rest₁, hat before₂ after₂ ctx₂ rest₂]

end DustTool
